import Mathlib

/-!
# Verification of the PennyPet invoice pipeline
Shallow embedding of `src/llm_parser/pennypet_processor.py`
(classes `NormaliseurAMVAmeliore` and `PennyPetProcessor`) and proofs
of the specification claims about it.

Monetary amounts are modelled as rationals (`ℚ`); Python dictionaries
with optional keys become structures with `Option` fields; the mutable
memoization cache `self.cache : Dict[str, Optional[str]]` becomes an
association list threaded through the functions; Python exceptions that
the code catches are made explicit with `Except` / sum types.

Configuration-dependent matching steps (compiled CSV regexes, glossary
contents, rapidfuzz scoring) are abstracted as function-valued fields of
`NormConfig`: the claims under study concern the *ordering*, *caching*
and *fallback* structure of the classifiers, which is independent of the
particular regex table loaded; concrete instantiations consistent with
the hard-coded patterns are used for counterexamples.
-/

namespace PennyPet

/-- ASCII lowercasing of one character (Python `str.lower` restricted to
the ASCII range; accented characters are left unchanged, which agrees
with Python on already-lowercase accented letters such as `é`). -/
def lowerChar (c : Char) : Char :=
  if 'A' ≤ c && c ≤ 'Z' then Char.ofNat (c.toNat + 32) else c

/-- ASCII uppercasing of one character. -/
def upperChar (c : Char) : Char :=
  if 'a' ≤ c && c ≤ 'z' then Char.ofNat (c.toNat - 32) else c

/-- Python `str.lower` (ASCII fragment). -/
def strLower (s : String) : String :=
  ⟨s.data.map lowerChar⟩

/-- Python `str.upper` (ASCII fragment). -/
def strUpper (s : String) : String :=
  ⟨s.data.map upperChar⟩

/-- Python's default `str.strip` whitespace set. -/
def isSpaceChar (c : Char) : Bool :=
  c = ' ' || c = '\t' || c = '\n' || c = '\r' || c = '\x0b' || c = '\x0c'

/-- Python `str.strip()`. -/
def strStrip (s : String) : String :=
  ⟨((s.data.dropWhile isSpaceChar).reverse.dropWhile isSpaceChar).reverse⟩

/-- Whether `pat` is a prefix of `s` (over characters); here  `pat` is a prefix of `s` (over characters). -/
def listIsPrefix : List Char → List Char → Bool
  | [], _ => true
  | _ :: _, [] => false
  | a :: as, b :: bs => a = b && listIsPrefix as bs

/-- Whether `pat` occurs as a contiguous substring; here  `pat` occurs as a contiguous substring of `s`. -/
def listContainsSub (pat : List Char) : List Char → Bool
  | [] => listIsPrefix pat []
  | c :: rest => listIsPrefix pat (c :: rest) || listContainsSub pat rest

/-- Python's `pat in s` substring test. -/
def substrOf (pat s : String) : Bool :=
  listContainsSub pat.data s.data

/-- The memoization cache `self.cache : Dict[str, Optional[str]]`.
Newer bindings shadow older ones (writes only happen for absent keys in
the source, so this models Python dict update faithfully). -/
def Cache := List (String × Option String)

/-- Dictionary lookup `cle in self.cache` / `self.cache[cle]`. -/
def cfind (c : Cache) (k : String) : Option (Option String) :=
  (List.find? (fun p => p.1 = k) c).map (fun p => p.2)

/-- Dictionary write `self.cache[cle] = v`. -/
def cinsert (c : Cache) (k : String) (v : Option String) : Cache :=
  (k, v) :: c

/-- The cache key `cle = str(libelle_brut).upper().strip()`. -/
def cacheKey (libelle : String) : String :=
  strStrip (strUpper libelle)

/-- Configuration-dependent matchers of `NormaliseurAMVAmeliore`.
Each field abstracts one matching step; internal text normalization
(`normaliser_accents`) is folded into the abstracted function, which
receives the argument the Python code computes it from. -/
structure NormConfig where
  /-- Step `_detecter_patterns_actes` on the raw label (hard-coded
  `patterns_actes` regexes over the accent-normalized text). -/
  detActes : String → Bool
  /-- consolidated `actes_df` rows: `pattern.search(cle)` together with
  the row's `code_acte` (default `"ACTES"` folded into the field). -/
  actesTable : List ((String → Bool) × String)
  /-- semantic fallback over `termes_actes`: word-boundary search of the
  accent-normalized term in the accent-normalized label, paired with
  `terme.upper()`. -/
  termesActes : List ((String → Bool) × String)
  /-- rapidfuzz `token_sort_ratio ≥ 80` match of `cle` against the known
  act codes (`none` when rapidfuzz is unavailable or the score is low). -/
  fuzzyActe : String → Option String
  /-- Step `_detecter_patterns_medicaments` on the raw label. -/
  detMeds : String → Bool
  /-- Test `libelle_norm in self.glossaire_normalise` (exact glossary hit). -/
  glossExact : String → Bool
  /-- partial glossary search (containment / shared long token). -/
  glossPartial : String → Bool
  /-- The `mapping_amv` search classifying the label as a medication. -/
  mappingAmv : String → Bool
  /-- rapidfuzz `partial_ratio ≥ 85` match against the glossary keys. -/
  fuzzyMed : String → Bool

/-- First row of a pattern table whose matcher accepts `s`, returning its
associated code (models the `for _, row in df.iterrows()` scans). -/
def tableFind : List ((String → Bool) × String) → String → Option String
  | [], _ => none
  | (m, code) :: rest, s => if m s then some code else tableFind rest s

/-- Model of `NormaliseurAMVAmeliore.normalise_acte`: classify a label as a
medical act, memoizing the outcome (including `None`) in the shared
cache under the uppercased-stripped key. -/
def normalise_acte (cfg : NormConfig) (cache : Cache) (libelle : String) :
    Option String × Cache :=
  if libelle = "" then (none, cache)
  else
    let cle := cacheKey libelle
    match cfind cache cle with
    | some v => (v, cache)
    | none =>
      if cfg.detActes libelle then
        (some "ACTES", cinsert cache cle (some "ACTES"))
      else
        match tableFind cfg.actesTable cle with
        | some code => (some code, cinsert cache cle (some code))
        | none =>
          match tableFind cfg.termesActes libelle with
          | some code => (some code, cinsert cache cle (some code))
          | none =>
            match cfg.fuzzyActe cle with
            | some m => (some m, cinsert cache cle (some m))
            | none => (none, cinsert cache cle none)

/-- Model of `NormaliseurAMVAmeliore.normalise_medicament`: classify a label as a
medication (every successful step returns the sentinel `"MEDICAMENTS"`),
memoizing in the same shared cache. -/
def normalise_medicament (cfg : NormConfig) (cache : Cache)
    (libelle : String) : Option String × Cache :=
  if libelle = "" then (none, cache)
  else
    let cle := cacheKey libelle
    match cfind cache cle with
    | some v => (v, cache)
    | none =>
      if cfg.detMeds libelle then
        (some "MEDICAMENTS", cinsert cache cle (some "MEDICAMENTS"))
      else if cfg.glossExact libelle then
        (some "MEDICAMENTS", cinsert cache cle (some "MEDICAMENTS"))
      else if cfg.glossPartial libelle then
        (some "MEDICAMENTS", cinsert cache cle (some "MEDICAMENTS"))
      else if cfg.mappingAmv libelle then
        (some "MEDICAMENTS", cinsert cache cle (some "MEDICAMENTS"))
      else if cfg.fuzzyMed libelle then
        (some "MEDICAMENTS", cinsert cache cle (some "MEDICAMENTS"))
      else (none, cinsert cache cle none)

/-- The hard-coded keyword list of `normalise` deciding which classifier
runs first: `['mg', 'ml', 'comprimé', 'gélule', 'vaccin', 'injection']`. -/
def medKeywords : List String :=
  ["mg", "ml", "comprimé", "gélule", "vaccin", "injection"]

/-- Test `any(pattern in libelle_lower for pattern in [...])`. -/
def hasMedKeyword (libelle : String) : Bool :=
  medKeywords.any (fun k => substrOf k (strLower libelle))

/-- Model of `NormaliseurAMVAmeliore.normalise`: medication-first when the
lowercased label contains an evident medication keyword, act-first
otherwise; final fallback is the uppercased stripped label. -/
def normalise (cfg : NormConfig) (cache : Cache) (libelle : String) :
    Option String × Cache :=
  if libelle = "" then (none, cache)
  else if hasMedKeyword libelle then
    match normalise_medicament cfg cache libelle with
    | (some v, c1) => (some v, c1)
    | (none, c1) =>
      match normalise_acte cfg c1 libelle with
      | (some v, c2) => (some v, c2)
      | (none, c2) => (some (strUpper (strStrip libelle)), c2)
  else
    match normalise_acte cfg cache libelle with
    | (some v, c1) => (some v, c1)
    | (none, c1) =>
      match normalise_medicament cfg c1 libelle with
      | (some v, c2) => (some v, c2)
      | (none, c2) => (some (strUpper (strStrip libelle)), c2)

/-- Result dictionary of `calculer_remboursement` /
`_calculer_avec_dataframe`; keys absent in some branches are `Option`. -/
structure RembResult where
  montant_ht : ℚ
  taux : ℚ
  remb_final : ℚ
  reste : ℚ
  formule : Option String
  type_couverture : Option String
  erreur : Option String
  regle_source : Option String
deriving Repr, DecidableEq

/-- One row of `regles_pc_df` (`regles_prise_en_charge.csv`).
`code_acte = none` models a NaN cell; `actes_couverts = none` models a
cell that is not a Python list; a missing `plafond_annuel` column is
`none` (the source defaults it to `float('inf')`). -/
structure Regle where
  formule : String
  code_acte : Option String
  actes_couverts : Option (List String)
  type_couverture : String
  taux_remboursement : ℚ
  plafond_annuel : Option ℚ
deriving Repr, DecidableEq

/-- The boolean row mask of `_calculer_avec_dataframe`. -/
def regleMatch (r : Regle) (code_acte : Option String) (formule : String)
    (est_accident : Bool) : Bool :=
  (r.formule = formule)
  && ((match code_acte with
       | some cd => r.code_acte = some cd
       | none => false)
      || ((r.code_acte.getD "ALL" = "ALL")
          && (match r.actes_couverts, code_acte with
              | some l, some cd => cd ∈ l
              | _, _ => false)))
  && ((r.type_couverture = "ACCIDENT_MALADIE")
      || ((r.type_couverture = "ACCIDENT_SEULEMENT") && est_accident))

/-- Model of `PennyPetProcessor._calculer_avec_dataframe`: first matching rule of
the rule table; no match yields the zero-coverage error result. -/
def calculerAvecDataframe (regles : List Regle) (montant : ℚ)
    (code_acte : Option String) (formule : String) (est_accident : Bool) :
    RembResult :=
  match regles.find? (fun r => regleMatch r code_acte formule est_accident) with
  | none =>
      { montant_ht := montant, taux := 0, remb_final := 0, reste := montant
        formule := none, type_couverture := none
        erreur := some ("Aucune règle DataFrame pour " ++ formule)
        regle_source := none }
  | some r =>
      let taux := r.taux_remboursement / 100
      let remb_brut := montant * taux
      let remb_final :=
        match r.plafond_annuel with
        | some p => min remb_brut p
        | none => remb_brut
      { montant_ht := montant, taux := taux * 100, remb_final := remb_final
        reste := montant - remb_final, formule := some formule
        type_couverture := none, erreur := none
        regle_source := some "dataframe" }

/-- Model of `PennyPetProcessor.calculer_remboursement`: the four fixed PennyPet
formulas, with the rule-table fallback for unknown formula names when
`regles_pc_df` is non-empty. -/
def calculer_remboursement (regles : List Regle) (montant : ℚ)
    (code_acte : Option String) (formule : String) (est_accident : Bool) :
    RembResult :=
  if formule = "START" then
    { montant_ht := montant, taux := 0, remb_final := 0, reste := montant
      formule := some formule, type_couverture := some "aucune"
      erreur := none, regle_source := none }
  else if formule = "PREMIUM" then
    if est_accident then
      let remb := min montant 500
      { montant_ht := montant, taux := 100, remb_final := remb
        reste := montant - remb, formule := some formule
        type_couverture := some "accident_seulement"
        erreur := none, regle_source := none }
    else
      { montant_ht := montant, taux := 0, remb_final := 0, reste := montant
        formule := some formule, type_couverture := some "accident_seulement"
        erreur := none, regle_source := none }
  else if formule = "INTEGRAL" then
    let remb := min (montant * (1 / 2)) 1000
    { montant_ht := montant, taux := 50, remb_final := remb
      reste := montant - remb, formule := some formule
      type_couverture := some "accident_et_maladie"
      erreur := none, regle_source := none }
  else if formule = "INTEGRAL_PLUS" then
    let remb := min montant 1000
    { montant_ht := montant, taux := 100, remb_final := remb
      reste := montant - remb, formule := some formule
      type_couverture := some "accident_et_maladie"
      erreur := none, regle_source := none }
  else if regles ≠ [] then
    calculerAvecDataframe regles montant code_acte formule est_accident
  else
    { montant_ht := montant, taux := 0, remb_final := 0, reste := montant
      formule := none, type_couverture := none
      erreur := some ("Formule inconnue: " ++ formule)
      regle_source := none }

/-- The hard-coded accident keyword set of `process_facture_pennypet`:
`{"accident", "urgent", "urgence", "fract", "trauma", "traumatisme",
"blessure"}` (a set literal; list order is irrelevant to `any`). -/
def accidentKeywords : List String :=
  ["accident", "urgent", "urgence", "fract", "trauma", "traumatisme",
   "blessure"]

/-- Accident flag `est_acc = any(mot in libelle.lower() for mot in accidents)`. -/
def estAccident (libelle : String) : Bool :=
  accidentKeywords.any (fun mot => substrOf mot (strLower libelle))

/-- The `montant_ht` cell of an extracted line, as seen by
`float(ligne.get("montant_ht", 0) or 0)`: a missing (or falsy) cell
gives `0`, a numeric value converts, and a non-numeric truthy value
makes `float` raise. -/
inductive MontantVal where
  | missing
  | num (q : ℚ)
  | invalid (s : String)
deriving Repr, DecidableEq

/-- Conversion `float(ligne.get("montant_ht", 0) or 0)` as an `Except`. -/
def montantOf : MontantVal → Except String ℚ
  | .missing => .ok 0
  | .num q => .ok q
  | .invalid s => .error ("could not convert string to float: " ++ s)

/-- One extracted invoice line, after `_nettoyer_donnees_extraites`. -/
structure RawLigne where
  code_acte : Option String
  description : Option String
  montant_ht : MontantVal
deriving Repr, DecidableEq

/-- Label extraction `(ligne.get("code_acte") or ligne.get("description", "")).strip()`:
a missing or empty (falsy) `code_acte` falls back to the description. -/
def rawLibelle (l : RawLigne) : String :=
  (match l.code_acte with
   | some s => if s = "" then l.description.getD "" else s
   | none => l.description.getD "")
  |> strStrip

/-- Per-line result dictionary built by `process_facture_pennypet`. -/
structure Resultat where
  code_acte : String
  description : String
  montant_ht : ℚ
  est_medicament : Bool
  code_normalise : Option String
  est_accident : Bool
  taux_remboursement : ℚ
  montant_rembourse : ℚ
  montant_reste_charge : ℚ
  erreur : Option String
deriving Repr, DecidableEq

/-- Outcome of the body of the per-line `try` block: an exception
(caught, error counter incremented), a silent skip (`montant <= 0`), or
a produced result. -/
inductive LigneOutcome where
  | erreur
  | dropped
  | ok (r : Resultat)
deriving Repr

/-- One iteration of the line loop of `process_facture_pennypet`,
threading the normalizer cache. The only modelled exception source is
the `float` conversion of the amount (the normalizer and the calculator
swallow their own exceptions internally). -/
def processLigne (cfg : NormConfig) (regles : List Regle)
    (formule : String) (cache : Cache) (ligne : RawLigne) :
    LigneOutcome × Cache :=
  let libelle := rawLibelle ligne
  match montantOf ligne.montant_ht with
  | .error _ => (.erreur, cache)
  | .ok montant =>
    if montant ≤ 0 then (.dropped, cache)
    else
      let nr := normalise cfg cache libelle
      let code_norm := nr.1
      let est_acc := estAccident libelle
      let remb := calculer_remboursement regles montant code_norm formule est_acc
      let est_medicament := code_norm = some "MEDICAMENTS"
      (.ok { code_acte := libelle
             description := ligne.description.getD libelle
             montant_ht := montant
             est_medicament := est_medicament
             code_normalise := code_norm
             est_accident := est_acc
             taux_remboursement := remb.taux
             montant_rembourse := remb.remb_final
             montant_reste_charge := remb.reste
             erreur := remb.erreur }, nr.2)

/-- The line loop: collected results, `erreurs_normalisation` counter,
final cache. -/
def processLignes (cfg : NormConfig) (regles : List Regle)
    (formule : String) : List RawLigne → Cache →
    List Resultat × ℕ × Cache
  | [], cache => ([], 0, cache)
  | l :: ls, cache =>
    match processLigne cfg regles formule cache l with
    | (.erreur, c1) =>
      let r := processLignes cfg regles formule ls c1
      (r.1, r.2.1 + 1, r.2.2)
    | (.dropped, c1) => processLignes cfg regles formule ls c1
    | (.ok res, c1) =>
      let r := processLignes cfg regles formule ls c1
      (res :: r.1, r.2.1, r.2.2)

/-- Python 3 `round` to an integer: round-half-to-even. -/
def roundHalfEven (q : ℚ) : ℤ :=
  if q - ⌊q⌋ < 1 / 2 then ⌊q⌋
  else if q - ⌊q⌋ > 1 / 2 then ⌊q⌋ + 1
  else if ⌊q⌋ % 2 = 0 then ⌊q⌋ else ⌊q⌋ + 1

/-- Python `round(x, 2)`. -/
def round2 (q : ℚ) : ℚ :=
  (roundHalfEven (q * 100) : ℚ) / 100

/-- The `resume` sub-dictionary of a successful invoice result. -/
structure Resume where
  total_facture : ℚ
  total_rembourse : ℚ
  reste_a_charge : ℚ
  taux_remboursement_global : ℚ
deriving Repr, DecidableEq

/-- Result of `process_facture_pennypet`; the failure branch omits the
`lignes` and `resume` keys, hence the `Option`s. -/
structure ProcessResult where
  success : Bool
  error : Option String
  lignes : Option (List Resultat)
  resume : Option Resume
  lignes_traitees : ℕ
  erreurs_normalisation : ℕ
  formule_utilisee : String
deriving Repr

/-- Extracted invoice data (output of `extract_lignes_from_image`). -/
structure ExtractedData where
  lignes : List RawLigne
deriving Repr

/-- Model of `PennyPetProcessor.process_facture_pennypet`.
`extraction` is the outcome of `extract_lignes_from_image` (an external
OCR/LLM call): `.error` models the exception the surrounding `try`
catches, turning it into the `success = False` structured result. -/
def process_facture_pennypet (cfg : NormConfig) (regles : List Regle)
    (formule_client : String) (extraction : Except String ExtractedData) :
    ProcessResult :=
  match extraction with
  | .error e =>
      { success := false, error := some e, lignes := none, resume := none
        lignes_traitees := 0, erreurs_normalisation := 0
        formule_utilisee := formule_client }
  | .ok data =>
      let pr := processLignes cfg regles formule_client data.lignes []
      let resultats := pr.1
      let total_facture := (resultats.map (fun r => r.montant_ht)).sum
      let total_rembourse := (resultats.map (fun r => r.montant_rembourse)).sum
      let reste_a_charge := total_facture - total_rembourse
      let taux_global :=
        if 0 < total_facture then total_rembourse / total_facture * 100 else 0
      { success := true, error := none
        lignes := some resultats
        resume := some
          { total_facture := round2 total_facture
            total_rembourse := round2 total_rembourse
            reste_a_charge := round2 reste_a_charge
            taux_remboursement_global := round2 taux_global }
        lignes_traitees := resultats.length
        erreurs_normalisation := pr.2.1
        formule_utilisee := formule_client }

/-- A normalizer configuration in which every configuration-dependent
matcher fails (empty act table, empty glossary, rapidfuzz unavailable).
The hard-coded regex heuristics also reject the labels used below, so
this instantiation is consistent with the source at those inputs. -/
def cfgEmpty : NormConfig :=
  { detActes := fun _ => false
    actesTable := []
    termesActes := []
    fuzzyActe := fun _ => none
    detMeds := fun _ => false
    glossExact := fun _ => false
    glossPartial := fun _ => false
    mappingAmv := fun _ => false
    fuzzyMed := fun _ => false }

/-- The (amended) exact behaviour of `calculer_remboursement` on the
four known formulas: the PREMIUM rate is reported as 100% whenever
`est_accident` holds, independently of the amount. -/
def Claim1Spec (regles : List Regle) (a : ℚ) (code : Option String)
    (acc : Bool) : Prop :=
  ((calculer_remboursement regles a code "START" acc).remb_final = 0 ∧
   (calculer_remboursement regles a code "START" acc).taux = 0 ∧
   (calculer_remboursement regles a code "START" acc).reste = a - 0) ∧
  ((calculer_remboursement regles a code "PREMIUM" acc).remb_final =
     (if acc then min a 500 else 0) ∧
   (calculer_remboursement regles a code "PREMIUM" acc).taux =
     (if acc then 100 else 0) ∧
   (calculer_remboursement regles a code "PREMIUM" acc).reste =
     a - (calculer_remboursement regles a code "PREMIUM" acc).remb_final) ∧
  ((calculer_remboursement regles a code "INTEGRAL" acc).remb_final =
     min (a * (1 / 2)) 1000 ∧
   (calculer_remboursement regles a code "INTEGRAL" acc).taux = 50 ∧
   (calculer_remboursement regles a code "INTEGRAL" acc).reste =
     a - min (a * (1 / 2)) 1000) ∧
  ((calculer_remboursement regles a code "INTEGRAL_PLUS" acc).remb_final =
     min a 1000 ∧
   (calculer_remboursement regles a code "INTEGRAL_PLUS" acc).taux = 100 ∧
   (calculer_remboursement regles a code "INTEGRAL_PLUS" acc).reste =
     a - min a 1000)

/-- A coverage rule used to refute C6: an unknown formula `"GOLD"` with
a loaded rule table reimbursing 80% of acts up to 1000. -/
def regleGold : Regle :=
  { formule := "GOLD"
    code_acte := some "ACTES"
    actes_couverts := none
    type_couverture := "ACCIDENT_MALADIE"
    taux_remboursement := 80
    plafond_annuel := some 1000 }

/-- A configuration whose hard-coded heuristics fire both ways on the
label `"consultation vaccin"`: the act heuristic `\b(consultation|…)\b`
matches (via the literal `consultation`) and the medication heuristic
`\b(vaccin|…)\b` matches (via the literal `vaccin`), exactly as the
compiled patterns of the source do on that label. -/
def cfgBoth : NormConfig :=
  { cfgEmpty with
    detActes := fun l => substrOf "consultation" (strLower l)
    detMeds := fun l => substrOf "vaccin" (strLower l) }

/-- A configuration whose medication matcher always fires (used to show
the cached `None` wins even over a matching classifier). -/
def cfgMedsAlways : NormConfig :=
  { cfgEmpty with detMeds := fun _ => true }

/-- No configuration-dependent matcher accepts the label. -/
def NoConfigMatch (cfg : NormConfig) (l : String) : Prop :=
  cfg.detActes l = false ∧
  tableFind cfg.actesTable (cacheKey l) = none ∧
  tableFind cfg.termesActes l = none ∧
  cfg.fuzzyActe (cacheKey l) = none ∧
  cfg.detMeds l = false ∧
  cfg.glossExact l = false ∧
  cfg.glossPartial l = false ∧
  cfg.mappingAmv l = false ∧
  cfg.fuzzyMed l = false

/-- A line whose amount cell makes `float(...)` raise. -/
def ligneRaises (l : RawLigne) : Bool :=
  match montantOf l.montant_ht with
  | .error _ => true
  | .ok _ => false

/-- A line that is kept (amount converts and is positive). -/
def ligneKept (l : RawLigne) : Bool :=
  match montantOf l.montant_ht with
  | .ok m => decide (0 < m)
  | .error _ => false

/-- A line labelled `"chute"` with a positive amount. -/
def ligneChute : RawLigne :=
  { code_acte := some "chute", description := some "chute"
    montant_ht := .num 50 }

/-- A line labelled `"fracture"` (accident via the substring `fract`). -/
def ligneFracture : RawLigne :=
  { code_acte := some "fracture", description := none
    montant_ht := .num 10 }

/-- A retained line whose amount `0.001` is not a whole cent. -/
def ligneMilli : RawLigne :=
  { code_acte := some "x", description := none
    montant_ht := .num (1 / 1000) }

/-!
## Helper lemmas and claim theorems
-/

/-- C1 (counterexample): for amount `0`, formula PREMIUM and
`est_accident = true`, the code reports rate 100% even though the
reimbursed amount is `0`, contradicting the claim that the rate is 0%
whenever the reimbursed amount is not positive. -/
theorem claim1_premium_rate_counterexample :
    (calculer_remboursement [] 0 none "PREMIUM" true).taux = 100 ∧
    (calculer_remboursement [] 0 none "PREMIUM" true).remb_final = 0 := by
  norm_num +decide [calculer_remboursement]

/-- C1 (amended): `calculer_remboursement` computes exactly
START → 0 at rate 0; PREMIUM → `min(a,500)` at reported rate 100% when
`est_accident` (independently of the amount, so also at `a = 0`) and 0
at rate 0% otherwise; INTEGRAL → `min(a/2,1000)` at rate 50%;
INTEGRAL_PLUS → `min(a,1000)` at rate 100%; with
`remaining = a - reimbursed` in every case. -/
theorem claim1_calculator_formulas (regles : List Regle) (a : ℚ)
    (code : Option String) (acc : Bool) (_h : 0 ≤ a) :
    Claim1Spec regles a code acc := by
  cases acc <;>
    simp +decide only [Claim1Spec, calculer_remboursement, if_true, if_false] <;>
    norm_num

/-- C1 (witness): the amended theorem instantiated at amount `3`,
accident flag `true`, empty rule table. -/
theorem claim1_calculator_formulas_witness :
    (0 : ℚ) ≤ 3 ∧ Claim1Spec [] 3 none true :=
  ⟨by norm_num, claim1_calculator_formulas [] 3 none true (by norm_num)⟩

/-- C2: on the four known formulas the reimbursed amount never exceeds
the billed amount nor the formula's cap (0 / 500 / 1000 / 1000). -/
theorem claim2_reimbursement_bounds (regles : List Regle) (a : ℚ)
    (code : Option String) (acc : Bool) (h : 0 ≤ a) :
    ((calculer_remboursement regles a code "START" acc).remb_final ≤ a ∧
     (calculer_remboursement regles a code "START" acc).remb_final ≤ 0) ∧
    ((calculer_remboursement regles a code "PREMIUM" acc).remb_final ≤ a ∧
     (calculer_remboursement regles a code "PREMIUM" acc).remb_final ≤ 500) ∧
    ((calculer_remboursement regles a code "INTEGRAL" acc).remb_final ≤ a ∧
     (calculer_remboursement regles a code "INTEGRAL" acc).remb_final ≤ 1000) ∧
    ((calculer_remboursement regles a code "INTEGRAL_PLUS" acc).remb_final ≤ a ∧
     (calculer_remboursement regles a code "INTEGRAL_PLUS" acc).remb_final ≤ 1000) := by
  have hhalf : a * (1 / 2) ≤ a := by linarith
  cases acc <;>
    refine ⟨⟨?_, ?_⟩, ⟨?_, ?_⟩, ⟨?_, ?_⟩, ⟨?_, ?_⟩⟩ <;>
    (try norm_num +decide [calculer_remboursement]) <;>
    first
      | exact Or.inl hhalf
      | exact le_trans (min_le_left _ _) hhalf
      | exact min_le_left _ _
      | exact min_le_right _ _
      | linarith

/-- C2 (witness): the bounds at amount `3`, accident flag `true`. -/
theorem claim2_reimbursement_bounds_witness :
    (0 : ℚ) ≤ 3 ∧
    ((calculer_remboursement [] 3 none "START" true).remb_final ≤ 3 ∧
     (calculer_remboursement [] 3 none "START" true).remb_final ≤ 0) ∧
    ((calculer_remboursement [] 3 none "PREMIUM" true).remb_final ≤ 3 ∧
     (calculer_remboursement [] 3 none "PREMIUM" true).remb_final ≤ 500) ∧
    ((calculer_remboursement [] 3 none "INTEGRAL" true).remb_final ≤ 3 ∧
     (calculer_remboursement [] 3 none "INTEGRAL" true).remb_final ≤ 1000) ∧
    ((calculer_remboursement [] 3 none "INTEGRAL_PLUS" true).remb_final ≤ 3 ∧
     (calculer_remboursement [] 3 none "INTEGRAL_PLUS" true).remb_final ≤ 1000) :=
  ⟨by norm_num, claim2_reimbursement_bounds [] 3 none true (by norm_num)⟩

/-- C6 (counterexample): with a coverage-rule DataFrame loaded, the
unknown formula `"GOLD"` at amount 100 reimburses 80 at rate 80% — not
the zero coverage the claim requires regardless of the DataFrame. -/
theorem claim6_unknown_formula_counterexample :
    (calculer_remboursement [regleGold] 100 (some "ACTES") "GOLD" false).remb_final = 80 ∧
    (calculer_remboursement [regleGold] 100 (some "ACTES") "GOLD" false).taux = 80 ∧
    (calculer_remboursement [regleGold] 100 (some "ACTES") "GOLD" false).reste = 20 := by
  norm_num +decide [calculer_remboursement, calculerAvecDataframe, regleMatch,
    regleGold, List.find?]

/-- C6 (amended): an unknown formula never raises; with no rule table
loaded it yields the explicit error result with zero coverage, and with
a rule table it yields zero coverage whenever no rule matches, otherwise
the matching rule's rate and cap are applied. -/
theorem claim6_unknown_formula_fallback (regles : List Regle) (a : ℚ)
    (code : Option String) (formule : String) (acc : Bool)
    (h1 : formule ≠ "START") (h2 : formule ≠ "PREMIUM")
    (h3 : formule ≠ "INTEGRAL") (h4 : formule ≠ "INTEGRAL_PLUS") :
    (regles = [] →
      calculer_remboursement regles a code formule acc =
        { montant_ht := a, taux := 0, remb_final := 0, reste := a
          formule := none, type_couverture := none
          erreur := some ("Formule inconnue: " ++ formule)
          regle_source := none }) ∧
    (regles.find? (fun r => regleMatch r code formule acc) = none →
      (calculer_remboursement regles a code formule acc).remb_final = 0 ∧
      (calculer_remboursement regles a code formule acc).taux = 0 ∧
      (calculer_remboursement regles a code formule acc).reste = a) ∧
    (∀ r, regles.find? (fun r => regleMatch r code formule acc) = some r →
      (calculer_remboursement regles a code formule acc).remb_final =
        (match r.plafond_annuel with
         | some p => min (a * (r.taux_remboursement / 100)) p
         | none => a * (r.taux_remboursement / 100))) := by
  unfold calculer_remboursement
  simp only [h1, h2, h3, h4, if_false, ne_eq]
  refine ⟨fun he => by simp [he], fun hn => ?_, fun r hr => ?_⟩
  · cases regles with
    | nil => simp [calculerAvecDataframe]
    | cons x xs =>
      simp [reduceCtorEq, not_false_eq_true, if_true, calculerAvecDataframe, hn]
  · cases regles with
    | nil => simp at hr
    | cons x xs =>
      simp only [reduceCtorEq, not_false_eq_true, if_true, calculerAvecDataframe, hr]

/-- C6 (witness): the amended theorem at formula `"GOLD"`, amount 5,
empty rule table. -/
theorem claim6_unknown_formula_fallback_witness :
    "GOLD" ≠ "START" ∧
    (([] : List Regle) = [] →
      calculer_remboursement [] 5 none "GOLD" false =
        { montant_ht := 5, taux := 0, remb_final := 0, reste := 5
          formule := none, type_couverture := none
          erreur := some ("Formule inconnue: " ++ "GOLD")
          regle_source := none }) :=
  ⟨by decide,
   (claim6_unknown_formula_fallback [] 5 none "GOLD" false (by decide)
      (by decide) (by decide) (by decide)).1⟩

theorem cfind_cinsert_self (c : Cache) (k : String) (v : Option String) :
    cfind (cinsert c k v) k = some v := by
  simp [cfind, cinsert, List.find?]

/-- A cache hit short-circuits `normalise_acte`. -/
theorem normalise_acte_hit (cfg : NormConfig) (c : Cache) (l : String)
    (v : Option String) (hl : l ≠ "") (h : cfind c (cacheKey l) = some v) :
    normalise_acte cfg c l = (v, c) := by
  simp [normalise_acte, hl, h]

/-- After `normalise_acte` returns, the cache maps the key of the label
to the returned value (the source memoizes every outcome, `None`
included). -/
theorem normalise_acte_after (cfg : NormConfig) (c : Cache) (l : String)
    (hl : l ≠ "") :
    cfind (normalise_acte cfg c l).2 (cacheKey l) =
      some (normalise_acte cfg c l).1 := by
  unfold normalise_acte
  rw [if_neg hl]
  cases hc : cfind c (cacheKey l) with
  | some v => simp [hc]
  | none =>
    simp only [hc]
    split <;> try simp [cfind_cinsert_self]
    split <;> try simp [cfind_cinsert_self]
    split <;> try simp [cfind_cinsert_self]
    split <;> simp [cfind_cinsert_self]

/-- A cache hit short-circuits `normalise_medicament`. -/
theorem normalise_medicament_hit (cfg : NormConfig) (c : Cache)
    (l : String) (v : Option String) (hl : l ≠ "")
    (h : cfind c (cacheKey l) = some v) :
    normalise_medicament cfg c l = (v, c) := by
  simp [normalise_medicament, hl, h]

/-- After `normalise_medicament` returns, the cache maps the key of the
label to the returned value. -/
theorem normalise_medicament_after (cfg : NormConfig) (c : Cache)
    (l : String) (hl : l ≠ "") :
    cfind (normalise_medicament cfg c l).2 (cacheKey l) =
      some (normalise_medicament cfg c l).1 := by
  unfold normalise_medicament
  rw [if_neg hl]
  cases hc : cfind c (cacheKey l) with
  | some v => simp [hc]
  | none =>
    simp only [hc]
    split <;> try simp [cfind_cinsert_self]
    split <;> try simp [cfind_cinsert_self]
    split <;> try simp [cfind_cinsert_self]
    split <;> try simp [cfind_cinsert_self]
    split <;> simp [cfind_cinsert_self]

/-- Unfolding of `normalise` on a label with a medication keyword: medication
classifier first, act classifier as fallback, uppercased label last. -/
theorem normalise_eq_medFirst (cfg : NormConfig) (c : Cache) (l : String)
    (hl : l ≠ "") (hk : hasMedKeyword l = true) :
    normalise cfg c l =
      (match normalise_medicament cfg c l with
       | (some v, c1) => (some v, c1)
       | (none, c1) =>
         match normalise_acte cfg c1 l with
         | (some v, c2) => (some v, c2)
         | (none, c2) => (some (strUpper (strStrip l)), c2)) := by
  unfold normalise
  rw [if_neg hl, hk]
  simp

/-- Unfolding of `normalise` on a label without a medication keyword: act classifier
first, medication classifier as fallback, uppercased label last. -/
theorem normalise_eq_acteFirst (cfg : NormConfig) (c : Cache) (l : String)
    (hl : l ≠ "") (hk : hasMedKeyword l = false) :
    normalise cfg c l =
      (match normalise_acte cfg c l with
       | (some v, c1) => (some v, c1)
       | (none, c1) =>
         match normalise_medicament cfg c1 l with
         | (some v, c2) => (some v, c2)
         | (none, c2) => (some (strUpper (strStrip l)), c2)) := by
  unfold normalise
  rw [if_neg hl, hk]
  simp

/-- C3 (counterexample): on the label `"consultation vaccin"` both an
act pattern and a medication pattern match, yet `normalise` returns
`"MEDICAMENTS"`, not the act classification: the lowercased label
contains `"vaccin"`, so the medication classifier runs first. -/
theorem claim3_priority_counterexample :
    cfgBoth.detActes "consultation vaccin" = true ∧
    (normalise_acte cfgBoth [] "consultation vaccin").1 = some "ACTES" ∧
    (normalise cfgBoth [] "consultation vaccin").1 = some "MEDICAMENTS" := by
  decide

/-- C3 (amended): the strategy order of `normalise` is not fixed — it is
act-first exactly when the lowercased label contains none of the six
hard-coded medication keywords (`mg`, `ml`, `comprimé`, `gélule`,
`vaccin`, `injection`), and medication-first otherwise; whichever
classifier runs first wins when it succeeds. -/
theorem claim3_conditional_priority (cfg : NormConfig) (c : Cache)
    (l : String) (hl : l ≠ "") :
    (hasMedKeyword l = false → ∀ v,
      (normalise_acte cfg c l).1 = some v →
      (normalise cfg c l).1 = some v) ∧
    (hasMedKeyword l = true → ∀ v,
      (normalise_medicament cfg c l).1 = some v →
      (normalise cfg c l).1 = some v) := by
  constructor
  · intro hk v hv
    cases ha : normalise_acte cfg c l with
    | mk r c1 =>
      rw [ha] at hv
      simp at hv
      subst hv
      rw [normalise_eq_acteFirst cfg c l hl hk, ha]
  · intro hk v hv
    cases hm : normalise_medicament cfg c l with
    | mk r c1 =>
      rw [hm] at hv
      simp at hv
      subst hv
      rw [normalise_eq_medFirst cfg c l hl hk, hm]

/-- C3 (witness): on the keyword-free label `"consultation"`, the act
classification of `cfgBoth` wins. -/
theorem claim3_conditional_priority_witness :
    ("consultation" : String) ≠ "" ∧
    (hasMedKeyword "consultation" = false → ∀ v,
      (normalise_acte cfgBoth [] "consultation").1 = some v →
      (normalise cfgBoth [] "consultation").1 = some v) :=
  ⟨by decide,
   (claim3_conditional_priority cfgBoth [] "consultation" (by decide)).1⟩

/-- C4: the two classifiers share one memoization cache keyed by the
uppercased stripped label, so once either classifier has returned `None`
for a label (final cache `c'`), the other classifier — under *any*
matcher configuration `cfg'`, even one whose patterns would match —
returns the cached `None` without classifying. -/
theorem claim4_shared_cache_blocks_fallback (cfg cfg' : NormConfig)
    (c c' : Cache) (l : String) (hl : l ≠ "") :
    (normalise_acte cfg c l = (none, c') →
      normalise_medicament cfg' c' l = (none, c')) ∧
    (normalise_medicament cfg c l = (none, c') →
      normalise_acte cfg' c' l = (none, c')) := by
  constructor
  · intro h
    have hc : cfind c' (cacheKey l) = some none := by
      have h2 := normalise_acte_after cfg c l hl
      rw [h] at h2
      exact h2
    exact normalise_medicament_hit cfg' c' l none hl hc
  · intro h
    have hc : cfind c' (cacheKey l) = some none := by
      have h2 := normalise_medicament_after cfg c l hl
      rw [h] at h2
      exact h2
    exact normalise_acte_hit cfg' c' l none hl hc

/-- C4 (witness): after `normalise_acte` rejects `"X"` under the empty
configuration, `normalise_medicament` returns `None` for `"X"` even
under a configuration whose medication matcher accepts everything. -/
theorem claim4_shared_cache_witness :
    normalise_medicament cfgMedsAlways (cinsert [] "X" none) "X" =
      (none, cinsert [] "X" none) :=
  (claim4_shared_cache_blocks_fallback cfgEmpty cfgMedsAlways []
    (cinsert [] "X" none) "X" (by decide)).1 (by rfl)

/-- C8 (counterexample): the whitespace-only label `" "` is a non-empty
input, yet `normalise` returns the empty string (the uppercased,
stripped fallback of an all-whitespace label is `""`). -/
theorem claim8_whitespace_counterexample :
    (" " : String) ≠ "" ∧
    (normalise cfgEmpty [] " ").1 = some "" := by
  decide

/-- C8 (amended): for every non-empty label, `normalise` returns a
non-null string, and when no matcher accepts the label the result is
exactly the uppercased stripped original — which is empty precisely for
whitespace-only labels. -/
theorem claim8_nonnull_fallback (cfg : NormConfig) (l : String)
    (hl : l ≠ "") :
    (∀ c : Cache, ((normalise cfg c l).1).isSome = true) ∧
    (NoConfigMatch cfg l →
      (normalise cfg [] l).1 = some (strUpper (strStrip l))) := by
  constructor
  · intro c
    cases hk : hasMedKeyword l with
    | true =>
      rw [normalise_eq_medFirst cfg c l hl hk]
      cases hm : normalise_medicament cfg c l with
      | mk r1 c1 =>
        cases r1 with
        | some v => simp
        | none =>
          cases ha : normalise_acte cfg c1 l with
          | mk r2 c2 => cases r2 <;> simp [ha]
    | false =>
      rw [normalise_eq_acteFirst cfg c l hl hk]
      cases ha : normalise_acte cfg c l with
      | mk r1 c1 =>
        cases r1 with
        | some v => simp
        | none =>
          cases hm : normalise_medicament cfg c1 l with
          | mk r2 c2 => cases r2 <;> simp [hm]
  · intro hnm
    obtain ⟨hA, hT, hS, hF, hM, hG1, hG2, hMA, hFM⟩ := hnm
    cases hk : hasMedKeyword l with
    | true =>
      rw [normalise_eq_medFirst cfg [] l hl hk]
      have hmed : normalise_medicament cfg [] l =
          (none, cinsert [] (cacheKey l) none) := by
        simp [normalise_medicament, hl, hM, hG1, hG2, hMA, hFM, cfind]
      rw [hmed]
      have hacte : normalise_acte cfg (cinsert [] (cacheKey l) none) l =
          (none, cinsert [] (cacheKey l) none) :=
        normalise_acte_hit cfg _ l none hl (cfind_cinsert_self _ _ _)
      simp [hacte]
    | false =>
      rw [normalise_eq_acteFirst cfg [] l hl hk]
      have hacte : normalise_acte cfg [] l =
          (none, cinsert [] (cacheKey l) none) := by
        simp [normalise_acte, hl, hA, hT, hS, hF, cfind]
      rw [hacte]
      have hmed : normalise_medicament cfg (cinsert [] (cacheKey l) none) l =
          (none, cinsert [] (cacheKey l) none) :=
        normalise_medicament_hit cfg _ l none hl (cfind_cinsert_self _ _ _)
      simp [hmed]

/-- C8 (witness): the amended theorem at the label `"X"` under the
all-rejecting configuration: the fallback `"X"` is returned. -/
theorem claim8_nonnull_fallback_witness :
    (∀ c : Cache, ((normalise cfgEmpty c "X").1).isSome = true) ∧
    (NoConfigMatch cfgEmpty "X" →
      (normalise cfgEmpty [] "X").1 = some (strUpper (strStrip "X"))) :=
  claim8_nonnull_fallback cfgEmpty "X" (by decide)

/-- C10: normalizing the same label twice in a row with the same
normalizer instance returns the identical code: the second call reads
the memoized outcome (or recomputes the same deterministic fallback). -/
theorem claim10_normalise_idempotent (cfg : NormConfig) (c : Cache)
    (l : String) :
    (normalise cfg (normalise cfg c l).2 l).1 = (normalise cfg c l).1 := by
  by_cases hl : l = ""
  · subst hl
    simp [normalise]
  · cases hk : hasMedKeyword l with
    | true =>
      cases hm : normalise_medicament cfg c l with
      | mk r1 c1 =>
        have hc1 : cfind c1 (cacheKey l) = some r1 := by
          have h := normalise_medicament_after cfg c l hl
          rw [hm] at h
          exact h
        cases r1 with
        | some v =>
          have h1 : normalise cfg c l = (some v, c1) := by
            rw [normalise_eq_medFirst cfg c l hl hk, hm]
          rw [h1]
          rw [normalise_eq_medFirst cfg c1 l hl hk,
            normalise_medicament_hit cfg c1 l (some v) hl hc1]
        | none =>
          have ha' : normalise_acte cfg c1 l = (none, c1) :=
            normalise_acte_hit cfg c1 l none hl hc1
          have h1 : normalise cfg c l = (some (strUpper (strStrip l)), c1) := by
            rw [normalise_eq_medFirst cfg c l hl hk, hm]
            simp [ha']
          rw [h1]
          rw [normalise_eq_medFirst cfg c1 l hl hk,
            normalise_medicament_hit cfg c1 l none hl hc1]
          simp [ha']
    | false =>
      cases hm : normalise_acte cfg c l with
      | mk r1 c1 =>
        have hc1 : cfind c1 (cacheKey l) = some r1 := by
          have h := normalise_acte_after cfg c l hl
          rw [hm] at h
          exact h
        cases r1 with
        | some v =>
          have h1 : normalise cfg c l = (some v, c1) := by
            rw [normalise_eq_acteFirst cfg c l hl hk, hm]
          rw [h1]
          rw [normalise_eq_acteFirst cfg c1 l hl hk,
            normalise_acte_hit cfg c1 l (some v) hl hc1]
        | none =>
          have hm' : normalise_medicament cfg c1 l = (none, c1) :=
            normalise_medicament_hit cfg c1 l none hl hc1
          have h1 : normalise cfg c l = (some (strUpper (strStrip l)), c1) := by
            rw [normalise_eq_acteFirst cfg c l hl hk, hm]
            simp [hm']
          rw [h1]
          rw [normalise_eq_acteFirst cfg c1 l hl hk,
            normalise_acte_hit cfg c1 l none hl hc1]
          simp [hm']

/-- A raising line is never a kept line. -/
theorem ligneRaises_not_kept (l : RawLigne) (h : ligneRaises l = true) :
    ligneKept l = false := by
  unfold ligneRaises at h
  unfold ligneKept
  cases hm : montantOf l.montant_ht with
  | error e => rfl
  | ok m => rw [hm] at h; simp at h

/-- Each line ends in exactly one of the three outcomes, determined by
its amount cell. -/
theorem processLigne_cases (cfg : NormConfig) (regles : List Regle)
    (formule : String) (c : Cache) (l : RawLigne) :
    (ligneRaises l = true ∧
      (processLigne cfg regles formule c l).1 = .erreur) ∨
    (ligneRaises l = false ∧ ligneKept l = false ∧
      (processLigne cfg regles formule c l).1 = .dropped) ∨
    (ligneRaises l = false ∧ ligneKept l = true ∧
      ∃ r, (processLigne cfg regles formule c l).1 = .ok r) := by
  unfold processLigne ligneRaises ligneKept
  cases hm : montantOf l.montant_ht with
  | error e => left; simp
  | ok m =>
    by_cases hle : m ≤ 0
    · right; left
      simp [hle, decide_eq_false (not_lt.mpr hle)]
    · right; right
      simp [hle, decide_eq_true (not_le.mp hle)]

/-- A produced per-line result always carries a positive amount
(`montant <= 0` lines are dropped before any result is built). -/
theorem processLigne_ok_pos (cfg : NormConfig) (regles : List Regle)
    (formule : String) (c : Cache) (l : RawLigne) (r : Resultat)
    (h : (processLigne cfg regles formule c l).1 = .ok r) :
    0 < r.montant_ht := by
  unfold processLigne at h
  cases hm : montantOf l.montant_ht with
  | error e => rw [hm] at h; simp at h
  | ok m =>
    rw [hm] at h
    by_cases hle : m ≤ 0
    · simp [hle] at h
    · simp [hle] at h
      rw [← h]
      exact not_le.mp hle

/-- The loop invariant of `processLignes`: the error counter counts the
raising lines, the result list is as long as the kept lines (every
non-raising, non-dropped line yields a result), and every collected
result has a positive amount. -/
theorem processLignes_spec (cfg : NormConfig) (regles : List Regle)
    (formule : String) :
    ∀ (ls : List RawLigne) (c : Cache),
      (processLignes cfg regles formule ls c).2.1 =
        (ls.filter ligneRaises).length ∧
      (processLignes cfg regles formule ls c).1.length =
        (ls.filter ligneKept).length ∧
      ∀ r ∈ (processLignes cfg regles formule ls c).1, 0 < r.montant_ht := by
  intro ls
  induction ls with
  | nil => intro c; simp [processLignes]
  | cons l ls ih =>
    intro c
    have hcase := processLigne_cases cfg regles formule c l
    cases hp : processLigne cfg regles formule c l with
    | mk o c1 =>
      rw [hp] at hcase
      unfold processLignes
      rw [hp]
      rcases hcase with ⟨hr, ho⟩ | ⟨hr, hk, ho⟩ | ⟨hr, hk, r, ho⟩ <;>
        simp only at ho <;> subst ho
      · simp only [List.filter_cons, hr, if_true]
        have := ih c1
        simp only [List.filter_cons, hr, Bool.false_eq_true, if_false] at this ⊢
        refine ⟨by simpa using this.1, ?_, this.2.2⟩
        simp [ligneRaises_not_kept l hr, this.2.1]
      · have := ih c1
        simp only [List.filter_cons, hr, hk, Bool.false_eq_true, if_false] at this ⊢
        exact this
      · have := ih c1
        simp only [List.filter_cons, hr, hk, Bool.false_eq_true, if_false,
          if_true, List.length_cons] at this ⊢
        refine ⟨this.1, by simpa using this.2.1, ?_⟩
        intro x hx
        rcases List.mem_cons.mp hx with hx | hx
        · subst hx
          exact processLigne_ok_pos cfg regles formule c l x (by rw [hp])
        · exact this.2.2 x hx

/-- C7: a whole-invoice extraction failure is returned as a structured
`success = false` result carrying the error string, and a per-line
exception only skips that line and increments the error counter — all
other lines are still processed (the number of produced results equals
the number of convertible positive-amount lines). -/
theorem claim7_error_resilience (cfg : NormConfig) (regles : List Regle)
    (formule : String) :
    (∀ e, (process_facture_pennypet cfg regles formule (.error e)).success = false ∧
      (process_facture_pennypet cfg regles formule (.error e)).error = some e) ∧
    (∀ data : ExtractedData,
      (process_facture_pennypet cfg regles formule (.ok data)).success = true ∧
      (process_facture_pennypet cfg regles formule (.ok data)).erreurs_normalisation =
        (data.lignes.filter ligneRaises).length ∧
      (process_facture_pennypet cfg regles formule (.ok data)).lignes_traitees =
        (data.lignes.filter ligneKept).length) := by
  constructor
  · intro e
    exact ⟨rfl, rfl⟩
  · intro data
    have h := processLignes_spec cfg regles formule data.lignes []
    exact ⟨rfl, h.1, h.2.1⟩

/-- C5 (counterexample): the label `"chute"` contains the word `chute`,
yet the pipeline flags the line as non-accident. -/
theorem claim5_chute_counterexample :
    substrOf "chute" (strLower (rawLibelle ligneChute)) = true ∧
    ((process_facture_pennypet cfgEmpty [] "PREMIUM"
        (.ok { lignes := [ligneChute] })).lignes.map
      (fun rs => rs.map (fun r => r.est_accident))) = some [false] := by
  constructor
  · decide
  · norm_num +decide [process_facture_pennypet, processLignes, processLigne,
      montantOf, ligneChute, rawLibelle, estAccident, accidentKeywords,
      normalise, hasMedKeyword, medKeywords, normalise_acte,
      normalise_medicament, cfgEmpty, cfind, tableFind,
      calculer_remboursement]

/-- C5 (amended): a processed line is flagged accident-related iff its
lowercased label contains one of the seven hard-coded keywords
`accident`, `urgent`, `urgence`, `fract`, `trauma`, `traumatisme`,
`blessure` — the set does not contain `chute` (and `fracture` is covered
through the substring `fract`). -/
theorem claim5_accident_keywords (cfg : NormConfig) (regles : List Regle)
    (formule : String) (c : Cache) (ligne : RawLigne) (m : ℚ)
    (hm : montantOf ligne.montant_ht = .ok m) (hpos : ¬m ≤ 0) :
    ∃ r, (processLigne cfg regles formule c ligne).1 = .ok r ∧
      (r.est_accident = true ↔
        ∃ k ∈ accidentKeywords,
          substrOf k (strLower (rawLibelle ligne)) = true) := by
  have h : (processLigne cfg regles formule c ligne).1 =
      .ok { code_acte := rawLibelle ligne
            description := ligne.description.getD (rawLibelle ligne)
            montant_ht := m
            est_medicament :=
              ((normalise cfg c (rawLibelle ligne)).1 = some "MEDICAMENTS")
            code_normalise := (normalise cfg c (rawLibelle ligne)).1
            est_accident := estAccident (rawLibelle ligne)
            taux_remboursement :=
              (calculer_remboursement regles m
                (normalise cfg c (rawLibelle ligne)).1 formule
                (estAccident (rawLibelle ligne))).taux
            montant_rembourse :=
              (calculer_remboursement regles m
                (normalise cfg c (rawLibelle ligne)).1 formule
                (estAccident (rawLibelle ligne))).remb_final
            montant_reste_charge :=
              (calculer_remboursement regles m
                (normalise cfg c (rawLibelle ligne)).1 formule
                (estAccident (rawLibelle ligne))).reste
            erreur :=
              (calculer_remboursement regles m
                (normalise cfg c (rawLibelle ligne)).1 formule
                (estAccident (rawLibelle ligne))).erreur } := by
    unfold processLigne
    rw [hm]
    simp [hpos]
  exact ⟨_, h, by simp [estAccident, List.any_eq_true]⟩

/-- C5 (witness): the amended theorem at the `"fracture"` line. -/
theorem claim5_accident_keywords_witness :
    ∃ r, (processLigne cfgEmpty [] "PREMIUM" [] ligneFracture).1 = .ok r ∧
      (r.est_accident = true ↔
        ∃ k ∈ accidentKeywords,
          substrOf k (strLower (rawLibelle ligneFracture)) = true) :=
  claim5_accident_keywords cfgEmpty [] "PREMIUM" [] ligneFracture 10
    (by rfl) (by norm_num)

/-- C9 (counterexample): for a single retained line of amount `0.001`,
the reported `total_facture` is the 2-decimal rounding `0.0`, not the
exact sum `0.001` the claim requires. -/
theorem claim9_rounding_counterexample :
    ((process_facture_pennypet cfgEmpty [] "START"
        (.ok { lignes := [ligneMilli] })).lignes.map
      (fun rs => (rs.map (fun r => r.montant_ht)).sum)) = some (1 / 1000) ∧
    ((process_facture_pennypet cfgEmpty [] "START"
        (.ok { lignes := [ligneMilli] })).resume.map
      (fun res => res.total_facture)) = some 0 ∧
    ((1 : ℚ) / 1000 ≠ 0) := by
  refine ⟨?_, ?_, by norm_num⟩ <;>
    norm_num +decide [process_facture_pennypet, processLignes, processLigne,
      montantOf, ligneMilli, rawLibelle, estAccident, accidentKeywords,
      normalise, hasMedKeyword, medKeywords, normalise_acte,
      normalise_medicament, cfgEmpty, cfind, tableFind,
      calculer_remboursement, round2, roundHalfEven]

/-- C9 (amended): lines with non-positive amounts are dropped (every
collected result has a positive amount), and the summary reports the
2-decimal roundings of the exact sums: `total_facture = round2(Σ a)`,
`total_rembourse = round2(Σ r)` and
`reste_a_charge = round2(Σ a − Σ r)`. -/
theorem claim9_totals_rounded (cfg : NormConfig) (regles : List Regle)
    (formule : String) (data : ExtractedData) :
    ∃ rs res,
      (process_facture_pennypet cfg regles formule (.ok data)).lignes = some rs ∧
      (process_facture_pennypet cfg regles formule (.ok data)).resume = some res ∧
      (∀ r ∈ rs, 0 < r.montant_ht) ∧
      res.total_facture = round2 ((rs.map (fun r => r.montant_ht)).sum) ∧
      res.total_rembourse = round2 ((rs.map (fun r => r.montant_rembourse)).sum) ∧
      res.reste_a_charge = round2 ((rs.map (fun r => r.montant_ht)).sum -
        (rs.map (fun r => r.montant_rembourse)).sum) := by
  refine ⟨(processLignes cfg regles formule data.lignes []).1, _,
    rfl, rfl, ?_, rfl, rfl, rfl⟩
  exact (processLignes_spec cfg regles formule data.lignes []).2.2

/-- C9 (witness): the amended theorem at the single-line invoice of
amount `0.001` under the START formula. -/
theorem claim9_totals_rounded_witness :
    ∃ rs res,
      (process_facture_pennypet cfgEmpty [] "START"
        (.ok { lignes := [ligneMilli] })).lignes = some rs ∧
      (process_facture_pennypet cfgEmpty [] "START"
        (.ok { lignes := [ligneMilli] })).resume = some res ∧
      (∀ r ∈ rs, 0 < r.montant_ht) ∧
      res.total_facture = round2 ((rs.map (fun r => r.montant_ht)).sum) ∧
      res.total_rembourse = round2 ((rs.map (fun r => r.montant_rembourse)).sum) ∧
      res.reste_a_charge = round2 ((rs.map (fun r => r.montant_ht)).sum -
        (rs.map (fun r => r.montant_rembourse)).sum) :=
  claim9_totals_rounded cfgEmpty [] "START" { lignes := [ligneMilli] }

end PennyPet
